import Mathlib

/-!
# Verification of the `chat_server` repository

Shallow embedding of the session/room core of the two C++ programs in the
repository:

* `src/chat_server/chat_server_server.cpp` (single-room variant; its
  `ChatSession::do_read` persists each received line via
  `ChatRoom::save_message_to_db`), and
* `src/chat_server_server/chat_server_server.cpp` (multi-room variant with a
  room registry `ChatServer::rooms_` and the textual command dispatcher
  `ChatServer::check_message`).

C++ `std::string` values are modelled as `List Char`; sessions
(`shared_ptr<ChatSession>` identities) are modelled as `Int` identifiers.
-/

namespace ChatSpec

/-- Model of `std::string::find(c)` combined with the two `substr` calls that
follow it in the source: returns the part before the first occurrence of `c`
and the part after it, or `none` when `c` does not occur (`npos`). -/
def splitAtFirst (c : Char) : List Char → Option (List Char × List Char)
  | [] => none
  | x :: xs =>
      if x = c then some ([], xs)
      else (splitAtFirst c xs).map (fun p => (x :: p.1, p.2))

/-- The `/`-separated chunks of a string, including a trailing empty chunk
when the string ends in `/` (and a single empty chunk for the empty
string). -/
def splitSlash : List Char → List (List Char)
  | [] => [[]]
  | c :: rest =>
      if c = '/' then [] :: splitSlash rest
      else
        match splitSlash rest with
        | chunk :: chunks => (c :: chunk) :: chunks
        | [] => [[c]]

/-- Model of the `/`-splitting loop of `ChatServer::check_message`
(`while ((end = params.find('/', start)) != npos) ... ;
if (start < params.size()) ...`): every `/`-separated chunk is processed in
order, except that the final chunk is skipped when it is empty (after the
loop, `start` equals `params.size()` exactly when the remaining chunk is
empty, and the `start < params.size()` guard then skips it). -/
def chunksSlash (s : List Char) : List (List Char) :=
  if (splitSlash s).getLast? = some [] then (splitSlash s).dropLast
  else splitSlash s

/-- Model of the per-chunk handling in `ChatServer::check_message`: each chunk
is split on its first `:` into a key/value pair; a chunk without `:` is
dropped. -/
def parse_params (params : List Char) : List (List Char × List Char) :=
  (chunksSlash params).filterMap (fun chunk => splitAtFirst ':' chunk)

/-- Model of `param_map[key] = value` insertion into the
`unordered_map<string, string>`: a later binding for the same key overwrites
the earlier one.  The map is modelled as a lookup function. -/
def insertKV (m : List Char → Option (List Char)) (k v : List Char) :
    List Char → Option (List Char) :=
  fun q => if q = k then some v else m q

/-- The parameter map built by `ChatServer::check_message` from the parameter
section of a message: key/value pairs are inserted in textual order, so a
repeated key ends up bound to its last occurrence. -/
def param_map (params : List Char) : List Char → Option (List Char) :=
  (parse_params params).foldl (fun m kv => insertKV m kv.1 kv.2) (fun _ => none)

/-- Model of `param_map[key]` read access in the handlers:
`unordered_map::operator[]` default-constructs an empty string for an absent
key. -/
def getP (m : List Char → Option (List Char)) (k : List Char) : List Char :=
  (m k).getD []

/-- The six characters accepted by `isspace` in the default locale, which
`std::stoi` (via `strtol`) skips before the number. -/
def isSpaceChar (c : Char) : Bool :=
  c == ' ' || c == '\t' || c == '\n' || c == '\x0b' || c == '\x0c' || c == '\r'

/-- The maximal leading run of decimal digits, as a number; `none` when there
is no leading digit (in which case `std::stoi` throws
`std::invalid_argument`). -/
def parseDigits (s : List Char) : Option Nat :=
  match s.takeWhile Char.isDigit with
  | [] => none
  | ds => some (ds.foldl (fun a c => a * 10 + (c.toNat - 48)) 0)

/-- Model of `std::stoi`: skip leading whitespace, read an optional sign and a
maximal run of decimal digits.  `none` models the thrown exception: either
`std::invalid_argument` (no digits) or `std::out_of_range` (value outside the
range of `int`). -/
def stoi (s : List Char) : Option Int :=
  let s1 := s.dropWhile isSpaceChar
  let core : Option Int :=
    match s1 with
    | '-' :: rest => (parseDigits rest).map (fun n => -(n : Int))
    | '+' :: rest => (parseDigits rest).map (fun n => (n : Int))
    | _ => (parseDigits s1).map (fun n => (n : Int))
  core.bind (fun v =>
    if v < -2147483648 ∨ 2147483647 < v then none else some v)

/-! ## `ChatRoom`

The class is textually identical in both source files (the
`src/chat_server_server` copy additionally has `member_count`): a membership
set `members_ : unordered_set<shared_ptr<ChatSession>>`, `join`, `leave`,
`broadcast` and `save_message_to_db`.  There is no host field of any kind.
Sessions are identified by `Int` ids; the membership set is modelled as a
duplicate-free list in iteration order. -/

structure ChatRoom where
  members : List Int
deriving DecidableEq, Repr

/-- One pass of the `for (auto& member : members_) boost::asio::write(...)`
loop of `ChatRoom::broadcast`.  `ok m` tells whether the socket write to
member `m` succeeds; `boost::asio::write` throws on failure, so the loop stops
at the first failing member.  Returns the members actually written to, and
`some m` when the write to `m` threw (the exception propagates to the
caller). -/
def broadcastRun (ok : Int → Bool) : List Int → List Int × Option Int
  | [] => ([], none)
  | m :: rest =>
      if ok m then
        let r := broadcastRun ok rest
        (m :: r.1, r.2)
      else ([], some m)

/-- `ChatRoom::broadcast(message)`: write the message to every member in
iteration order, stopping with an exception at the first failed write. -/
def ChatRoom.broadcast (r : ChatRoom) (ok : Int → Bool) :
    List Int × Option Int :=
  broadcastRun ok r.members

/-- `ChatRoom::join(session)`: `members_.insert(session)` followed by
`broadcast("A new user has joined the chat.")`.  Returns the new room state
and the members the join notice is written to (the membership after the
insert).  `unordered_set::insert` leaves the set unchanged when the element is
already present. -/
def ChatRoom.join (r : ChatRoom) (s : Int) : ChatRoom × List Int :=
  let r' : ChatRoom :=
    { members := if s ∈ r.members then r.members else r.members ++ [s] }
  (r', r'.members)

/-- `ChatRoom::leave(session)`: `members_.erase(session)` followed by
`broadcast("A user has left the chat.")`.  Returns the new room state and the
members the leave notice is written to (the membership after the erase). -/
def ChatRoom.leave (r : ChatRoom) (s : Int) : ChatRoom × List Int :=
  let r' : ChatRoom := { members := r.members.filter (fun x => x != s) }
  (r', r'.members)

/-- `ChatRoom::member_count()`: `members_.size()`. -/
def ChatRoom.member_count (r : ChatRoom) : Nat :=
  r.members.length

/-! ## The `src/chat_server` program (single fixed room)

Its `ChatSession::do_read` success path broadcasts each received line and then
persists it: `room_.broadcast(message); room_.save_message_to_db(room_id_,
user_id_, message);`. -/

namespace Simple

/-- One row of the `talks` relation, as inserted by
`ChatRoom::save_message_to_db` (`INSERT INTO talks (room_id, user_id, text,
published_date) VALUES (?, ?, ?, datetime('now'))`). -/
structure TalkRow where
  room_id : Int
  user_id : Int
  text : List Char
  published_date : List Char
deriving DecidableEq, Repr

/-- `ChatRoom::save_message_to_db(room_id, user_id, message)`: appends exactly
one row to `talks`, binding the given room id, user id and text; the timestamp
is the server-side `datetime('now')`, passed here as `now`.  `dbOk = false`
models the early-return error paths (open/prepare/step failure), on which no
row is recorded. -/
def save_message_to_db (talks : List TalkRow) (dbOk : Bool)
    (room_id user_id : Int) (message now : List Char) : List TalkRow :=
  if dbOk then talks ++ [⟨room_id, user_id, message, now⟩] else talks

/-- The success branch of `ChatSession::do_read` for one received line:
`room_.broadcast(message)` then `room_.save_message_to_db(room_id_, user_id_,
message)`.  If a broadcast write throws, the exception propagates out of the
handler and `save_message_to_db` is never reached. -/
def do_read_line (room : ChatRoom) (talks : List TalkRow) (ok : Int → Bool)
    (dbOk : Bool) (room_id user_id : Int) (message now : List Char) :
    (List Int × Option Int) × List TalkRow :=
  let b := room.broadcast ok
  match b.2 with
  | some _ => (b, talks)
  | none => (b, save_message_to_db talks dbOk room_id user_id message now)

end Simple

/-! ## The `src/chat_server_server` program (room registry + dispatcher) -/

namespace Server

/-- The room registry `ChatServer::rooms_ : unordered_map<int,
shared_ptr<ChatRoom>>`, modelled as an association list in iteration order. -/
structure ServerState where
  rooms : List (Int × ChatRoom)
deriving DecidableEq, Repr

/-- `rooms_.find(room_id)`. -/
def getRoom (st : ServerState) (room_id : Int) : Option ChatRoom :=
  (st.rooms.find? (fun p => p.1 == room_id)).map Prod.snd

/-- `ChatServer::get_or_create_room(room_id)`: inserts an empty room when the
id is absent.  (The C++ returns a reference to the room; state updates through
that reference are modelled by `updateRoom`.) -/
def get_or_create_room (st : ServerState) (room_id : Int) : ServerState :=
  if (getRoom st room_id).isSome then st
  else { rooms := st.rooms ++ [(room_id, ⟨[]⟩)] }

/-- Mutation of the room `get_or_create_room` returned a reference to. -/
def updateRoom (st : ServerState) (room_id : Int) (f : ChatRoom → ChatRoom) :
    ServerState :=
  { rooms := st.rooms.map (fun p => if p.1 == room_id then (p.1, f p.2) else p) }

/-- `ChatServer::remove_empty_room(room_id)`: erases the registry entry iff it
exists and `member_count() == 0`. -/
def remove_empty_room (st : ServerState) (room_id : Int) : ServerState :=
  match getRoom st room_id with
  | some r =>
      if r.member_count = 0 then
        { rooms := st.rooms.filter (fun p => !(p.1 == room_id)) }
      else st
  | none => st

/-- `server_.get_or_create_room(room_id_).leave(session)`: ensure the room
exists, then erase the session from it (the leave notice broadcast is dropped
here; only the state effect is kept). -/
def leaveInRoom (st : ServerState) (room_id : Int) (s : Int) : ServerState :=
  updateRoom (get_or_create_room st room_id) room_id (fun r => (r.leave s).1)

/-- `ChatSession::leave_room()`:
`server_.get_or_create_room(room_id_).leave(self_);
server_.remove_empty_room(room_id_);`. -/
def leave_room (st : ServerState) (room_id : Int) (s : Int) : ServerState :=
  remove_empty_room (leaveInRoom st room_id s) room_id

/-- The transport-error branch of `ChatSession::do_read`
(`else { server_.get_or_create_room(room_id_).leave(self); }`): the session
leaves its room, and nothing else happens — in particular
`remove_empty_room` is not called on this path. -/
def do_read_error (st : ServerState) (room_id : Int) (s : Int) : ServerState :=
  leaveInRoom st room_id s

/-- The success branch of `ChatSession::do_read` in this program:
`server_.get_or_create_room(room_id_).broadcast(message); do_read();`.
The branch contains no persistence call — `save_message_to_db` is defined on
this program's `ChatRoom` but never invoked anywhere, and the `send_text`
case of `check_message` only prints — so the `talks` relation passes through
unchanged.  Returns the registry after `get_or_create_room`, the broadcast
result for the accepted line, and the unchanged `talks`. -/
def do_read_line (st : ServerState) (talks : List Simple.TalkRow)
    (room_id : Int) (ok : Int → Bool) (_message : List Char) :
    (ServerState × (List Int × Option Int)) × List Simple.TalkRow :=
  let st1 := get_or_create_room st room_id
  let room := (getRoom st1 room_id).getD ⟨[]⟩
  ((st1, room.broadcast ok), talks)

/-- The observable result of `ChatServer::check_message` (the active
definition at lines 269–374).  The function only parses and logs: each
handler case records the values it extracted, each error case records the
diagnostic that is printed.  `stoiFailure` models the `std::invalid_argument`
/ `std::out_of_range` exception thrown by `std::stoi` and propagating out of
the function; `silentIgnore` models falling through a `switch` case when the
command matches none of the strings tested in that case (nothing is printed
and nothing happens). -/
inductive Outcome where
  | malformed
  | emptyCommand
  | createUser (id password : List Char)
  | createRoomOrInvite (title : List Char)
  | loginUser (id password : List Char)
  | joinRoom (room_id : Int)
  | sendText (room_id user_id : Int) (text : List Char)
  | exitRoom (room_id user_id : Int)
  | kickUser (room_id user_id target_user_id : Int)
  | grantHost (room_id user_id target_user_id : Int)
  | unknownCommand (command : List Char)
  | silentIgnore
  | stoiFailure
deriving DecidableEq, Repr

/-- The body of `ChatServer::check_message` after the `?`-split: build the
parameter map, reject an empty command, then `switch (command[0])` with exact
string comparisons inside each case.  Parameter reads use
`param_map["key"]` (empty string when absent); numeric parameters go through
`std::stoi`, whose exception aborts the remaining reads. -/
def dispatch (command params : List Char) : Outcome :=
  let pm := param_map params
  match command with
  | [] => .emptyCommand
  | c :: _ =>
      if c = 'c' then
        if command = "create_user".data then
          .createUser (getP pm "id".data) (getP pm "password".data)
        else if command = "create_room".data ∨ command = "invite_user".data then
          .createRoomOrInvite (getP pm "title".data)
        else .silentIgnore
      else if c = 'l' then
        if command = "login_user".data then
          .loginUser (getP pm "id".data) (getP pm "password".data)
        else .silentIgnore
      else if c = 'j' then
        if command = "join_room".data then
          match stoi (getP pm "room_id".data) with
          | none => .stoiFailure
          | some room_id => .joinRoom room_id
        else .silentIgnore
      else if c = 's' then
        if command = "send_text".data then
          match stoi (getP pm "room_id".data) with
          | none => .stoiFailure
          | some room_id =>
              match stoi (getP pm "user_id".data) with
              | none => .stoiFailure
              | some user_id => .sendText room_id user_id (getP pm "text".data)
        else .silentIgnore
      else if c = 'e' then
        if command = "exit_room".data then
          match stoi (getP pm "room_id".data) with
          | none => .stoiFailure
          | some room_id =>
              match stoi (getP pm "user_id".data) with
              | none => .stoiFailure
              | some user_id => .exitRoom room_id user_id
        else .silentIgnore
      else if c = 'k' then
        if command = "kick_user".data then
          match stoi (getP pm "room_id".data) with
          | none => .stoiFailure
          | some room_id =>
              match stoi (getP pm "user_id".data) with
              | none => .stoiFailure
              | some user_id =>
                  match stoi (getP pm "target_user_id".data) with
                  | none => .stoiFailure
                  | some target => .kickUser room_id user_id target
        else .silentIgnore
      else if c = 'g' then
        if command = "grant_host".data then
          match stoi (getP pm "room_id".data) with
          | none => .stoiFailure
          | some room_id =>
              match stoi (getP pm "user_id".data) with
              | none => .stoiFailure
              | some user_id =>
                  match stoi (getP pm "target_user_id".data) with
                  | none => .stoiFailure
                  | some target => .grantHost room_id user_id target
        else .silentIgnore
      else .unknownCommand command

/-- `ChatServer::check_message(message)`: split on the first `?` (absence is
the `"Invalid message format"` error), then dispatch. -/
def check_message (message : List Char) : Outcome :=
  match splitAtFirst '?' message with
  | none => .malformed
  | some (command, params) => dispatch command params

/-- `check_message` as a method of `ChatServer`: the function reads and
writes none of the server's fields (`rooms_`, `users_`, `sessions_`) in any
branch — its only effects are console output and the `stoi` exception — so
the server state passes through unchanged. -/
def check_message_on (st : ServerState) (message : List Char) :
    ServerState × Outcome :=
  (st, check_message message)

/-- The nine commands the spec recognises (the strings compared against in
`check_message`). -/
def recognized : List (List Char) :=
  ["create_user".data, "login_user".data, "create_room".data,
   "invite_user".data, "join_room".data, "send_text".data,
   "exit_room".data, "kick_user".data, "grant_host".data]

/-- The seven first characters that have a `case` label in the
`switch (command[0])` of `check_message`. -/
def caseHeads : List (Option Char) :=
  [some 'c', some 'l', some 'j', some 's', some 'e', some 'k', some 'g']

end Server

/-! ## Helper lemmas -/

theorem splitAtFirst_eq_none {c : Char} {s : List Char} (h : c ∉ s) :
    splitAtFirst c s = none := by
  induction s with
  | nil => rfl
  | cons x xs ih =>
      simp only [List.mem_cons, not_or] at h
      simp [splitAtFirst, Ne.symm h.1, ih h.2]

theorem splitAtFirst_append {c : Char} {l₁ : List Char} (l₂ : List Char)
    (h : c ∉ l₁) : splitAtFirst c (l₁ ++ c :: l₂) = some (l₁, l₂) := by
  induction l₁ with
  | nil => simp [splitAtFirst]
  | cons x xs ih =>
      simp only [List.mem_cons, not_or] at h
      simp [splitAtFirst, Ne.symm h.1, ih h.2]

theorem broadcastRun_eq (ok : Int → Bool) (l : List Int) :
    broadcastRun ok l = (l.takeWhile ok, l.find? (fun m => !(ok m))) := by
  induction l with
  | nil => rfl
  | cons m rest ih =>
      cases h : ok m <;>
        simp [broadcastRun, h, ih, List.takeWhile_cons, List.find?_cons]

theorem foldl_insertKV (l : List (List Char × List Char))
    (m₀ : List Char → Option (List Char)) (k : List Char) :
    (l.foldl (fun m kv => insertKV m kv.1 kv.2) m₀) k =
      match l.reverse.find? (fun p => p.1 == k) with
      | some p => some p.2
      | none => m₀ k := by
  induction l generalizing m₀ with
  | nil => rfl
  | cons a l ih =>
      simp only [List.foldl_cons, List.reverse_cons, List.find?_append, ih]
      cases hf : l.reverse.find? (fun p => p.1 == k) with
      | some p => simp
      | none =>
          simp only [Option.none_or]
          by_cases hk : a.1 = k
          · simp [List.find?_cons, hk, insertKV]
          · have hb : (a.1 == k) = false := by simpa using hk
            simp only [List.find?_cons, hb, insertKV]
            rw [if_neg (fun h => hk h.symm)]
            simp

/-! ## Claim theorems -/

/-- C1: evaluation of the code at the claim's scenario.  The claim requires
that when the host of a room leaves a room that stays non-empty, exactly one
remaining member becomes the new host, and that an emptied room is destroyed.
In the source, `ChatRoom` consists solely of the membership set `members_` —
there is no `hostUserId` or host pointer anywhere — and `ChatRoom::leave`
only erases the session and broadcasts, so no member ever becomes host.  The
first conjunct shows the complete effect of the host's leave on a two-member
room (erase plus a notice to the survivor; the resulting `ChatRoom` value has
no host component to update); the second shows that after the only leave the
program actually performs (the transport-error branch of
`ChatSession::do_read`), an emptied room is still registered, not
destroyed. -/
theorem host_leave_no_reassignment :
    ChatRoom.leave ⟨[1, 2]⟩ 1 = (⟨[2]⟩, [2]) ∧
    Server.do_read_error ⟨[(5, ⟨[1]⟩)]⟩ 5 1 = ⟨[(5, ⟨[]⟩)]⟩ := by
  decide

/-- C2: evaluation of the code at the claim's failing input.  A transport
error on the connection of the sole member of room `7` triggers the error
branch of `ChatSession::do_read`, which calls only
`get_or_create_room(room_id_).leave(self)`.  The first conjunct shows that
room `7` then remains in the registry with zero members — the entry is not
removed, contradicting the claim.  The second conjunct shows that the helper
`ChatSession::leave_room` (which the program never calls) would have removed
it. -/
theorem transport_error_leave_keeps_empty_room :
    Server.do_read_error ⟨[(7, ⟨[1]⟩)]⟩ 7 1 = ⟨[(7, ⟨[]⟩)]⟩ ∧
    Server.leave_room ⟨[(7, ⟨[1]⟩)]⟩ 7 1 = ⟨[]⟩ := by
  decide

/-- C5: evaluation of the code at the claim's scenario.  The claim requires
that the first member to join a room becomes its host.  The first conjunct
shows the complete effect of `ChatRoom::join` on an empty room: the session
is inserted and the join notice is written to the membership after the
insert (here, the joiner itself); the resulting `ChatRoom` value consists of
the membership list alone, so no host is assigned anywhere.  The second
conjunct shows the insert and the notice to existing plus new members on a
non-empty room. -/
theorem first_join_no_host_assignment :
    ChatRoom.join ⟨[]⟩ 1 = (⟨[1]⟩, [1]) ∧
    ChatRoom.join ⟨[4, 5]⟩ 6 = (⟨[4, 5, 6]⟩, [4, 5, 6]) := by
  decide

/-- C6 (counterexample): the claim says a delivery failure to one member does
not prevent delivery to the remaining members and is reported, not raised.
In the source, `ChatRoom::broadcast` calls `boost::asio::write` without an
`error_code` argument, so a failed write throws.  With members `[1, 2]` and a
write that fails exactly on member `1`, nobody receives the message — member
`2` is prevented even though its own write would succeed — and the failure is
raised to the caller (the `some 1` exception), not reported alongside
continued delivery. -/
theorem broadcast_failure_blocks_rest :
    ChatRoom.broadcast ⟨[1, 2]⟩ (fun m => m == 2) = ([], some 1) := by
  decide

/-- C6 (amended): `ChatRoom::broadcast` writes the message to the members in
iteration order; the members written to are the longest all-successful prefix
of the membership, and the first member whose write fails is raised as an
exception to the caller (`none` when every write succeeds, in which case the
prefix is the whole membership). -/
theorem broadcast_characterization (r : ChatRoom) (ok : Int → Bool) :
    r.broadcast ok =
      (r.members.takeWhile ok, r.members.find? (fun m => !(ok m))) :=
  broadcastRun_eq ok r.members

/-- C9: the parameter map built by `ChatServer::check_message` binds each key
to the value of that key's last occurrence in the parameter section
(`param_map[key] = value` overwrites): the lookup equals the first match in
the reversed list of parsed key/value pairs. -/
theorem param_map_last_occurrence_wins (params k : List Char) :
    param_map params k =
      ((parse_params params).reverse.find? (fun p => p.1 == k)).map
        Prod.snd := by
  rw [param_map, foldl_insertKV]
  cases (parse_params params).reverse.find? (fun p => p.1 == k) <;> simp

/-- C8: an input line containing no `?` makes `ChatServer::check_message`
report the `"Invalid message format"` error and return immediately: the
server state (rooms, users, sessions) is unchanged and no branch of the
function closes or otherwise touches the connection. -/
theorem no_question_mark_malformed (st : Server.ServerState)
    (message : List Char) (h : '?' ∉ message) :
    Server.check_message_on st message = (st, .malformed) := by
  simp [Server.check_message_on, Server.check_message, splitAtFirst_eq_none h]

/-- Witness for `no_question_mark_malformed` at the concrete line
`hello`. -/
theorem no_question_mark_malformed_witness :
    Server.check_message_on ⟨[]⟩ "hello".data = (⟨[]⟩, .malformed) :=
  no_question_mark_malformed ⟨[]⟩ "hello".data (by decide)

/-- C10: `unordered_set` semantics of the membership container.  Joining a
session that is already a member leaves the membership set and
`member_count()` unchanged — `members_.insert` is a no-op — yet the join
notice is still broadcast to the full membership; symmetrically, a leave of a
non-member changes nothing — `members_.erase` removes nothing — yet the
leave notice is still broadcast to the full membership. -/
theorem join_leave_noop_on_membership (r : ChatRoom) (s t : Int)
    (hs : s ∈ r.members) (ht : t ∉ r.members) :
    r.join s = (r, r.members) ∧
    (r.join s).1.member_count = r.member_count ∧
    r.leave t = (r, r.members) := by
  have hj : r.join s = (r, r.members) := by
    simp [ChatRoom.join, hs]
  have hf : r.members.filter (fun x => x != t) = r.members := by
    refine List.filter_eq_self.mpr (fun a ha => ?_)
    have hne : a ≠ t := fun he => ht (he ▸ ha)
    simpa [bne_iff_ne] using hne
  exact ⟨hj, by rw [hj], by simp [ChatRoom.leave, hf]⟩

/-- Witness for `join_leave_noop_on_membership`: room `{1, 2}`, re-join of
member `1`, leave of non-member `5`. -/
theorem join_leave_noop_on_membership_witness :
    ChatRoom.join ⟨[1, 2]⟩ 1 = (⟨[1, 2]⟩, [1, 2]) ∧
    (ChatRoom.join ⟨[1, 2]⟩ 1).1.member_count =
      ChatRoom.member_count ⟨[1, 2]⟩ ∧
    ChatRoom.leave ⟨[1, 2]⟩ 5 = (⟨[1, 2]⟩, [1, 2]) :=
  join_leave_noop_on_membership ⟨[1, 2]⟩ 1 5 (by decide) (by decide)

/-- C4: evaluation of the code at the claim's failing input.  The claim
requires every accepted `send_text` to append exactly one matching `talks`
row.  In the multi-room program — whose `ChatSession::do_read` (the path the
claim cites) accepts the message lines — the success branch only broadcasts:
`save_message_to_db` is defined on that program's `ChatRoom` but never
called, and the `send_text` case of `check_message` only prints.  The first
two conjuncts show an accepted line for room `1` being delivered to both
members while `talks` stays empty — zero rows appended.  The third conjunct
shows that the single-room prototype's `do_read` performs exactly the append
the claim requires (one row, matching room id, user id and text), so the
multi-room variant dropping that call is a slip, not a design change. -/
theorem send_text_appends_no_row :
    (Server.do_read_line ⟨[(1, ⟨[2, 3]⟩)]⟩ [] 1 (fun _ => true)
        "hi".data).2 = [] ∧
    (Server.do_read_line ⟨[(1, ⟨[2, 3]⟩)]⟩ [] 1 (fun _ => true)
        "hi".data).1 = (⟨[(1, ⟨[2, 3]⟩)]⟩, ([2, 3], none)) ∧
    (Simple.do_read_line ⟨[2, 3]⟩ [] (fun _ => true) true 1 2 "hi".data
        "t".data).2 = [⟨1, 2, "hi".data, "t".data⟩] := by
  decide

/-- C3 (counterexample): the claim says every unrecognized command — e.g.
`create_x`, which shares its first character with `create_user` — is reported
as `UnknownCommand`.  In the source, `create_x` enters `case 'c':` of the
`switch (command[0])`, matches none of the strings compared there, and falls
out of the `switch` without reaching the `default:` label: nothing is
reported at all. -/
theorem create_x_not_reported :
    Server.check_message "create_x?a:b".data = .silentIgnore ∧
    Server.check_message "create_x?a:b".data ≠
      .unknownCommand "create_x".data := by
  decide

/-- C3 (amended): for every input line that splits into an unrecognized
command and a parameter section, no server state changes, and the outcome is:
the empty-command error when the command part is empty; silence (no report)
when its first character carries a `case` label in `switch (command[0])`
(`c`, `l`, `j`, `s`, `e`, `k`, `g`); and the `UnknownCommand` report only
otherwise. -/
theorem unrecognized_command_dispatch (st : Server.ServerState)
    (message command params : List Char)
    (hsplit : splitAtFirst '?' message = some (command, params))
    (hnot : command ∉ Server.recognized) :
    Server.check_message_on st message =
      (st,
        if command = [] then .emptyCommand
        else if command.head? ∈ Server.caseHeads then .silentIgnore
        else .unknownCommand command) := by
  have h1 : command ≠ "create_user".data := fun h =>
    hnot (by simp [Server.recognized, h])
  have h2 : command ≠ "login_user".data := fun h =>
    hnot (by simp [Server.recognized, h])
  have h3 : command ≠ "create_room".data := fun h =>
    hnot (by simp [Server.recognized, h])
  have h4 : command ≠ "invite_user".data := fun h =>
    hnot (by simp [Server.recognized, h])
  have h5 : command ≠ "join_room".data := fun h =>
    hnot (by simp [Server.recognized, h])
  have h6 : command ≠ "send_text".data := fun h =>
    hnot (by simp [Server.recognized, h])
  have h7 : command ≠ "exit_room".data := fun h =>
    hnot (by simp [Server.recognized, h])
  have h8 : command ≠ "kick_user".data := fun h =>
    hnot (by simp [Server.recognized, h])
  have h9 : command ≠ "grant_host".data := fun h =>
    hnot (by simp [Server.recognized, h])
  simp only [Server.check_message_on, Server.check_message, hsplit,
    Prod.mk.injEq, true_and]
  cases command with
  | nil => simp [Server.dispatch]
  | cons c rest =>
      by_cases hc : c = 'c'
      · subst hc; simp [Server.dispatch, Server.caseHeads, h1, h3, h4]
      · by_cases hl : c = 'l'
        · subst hl; simp [Server.dispatch, Server.caseHeads, h2]
        · by_cases hj : c = 'j'
          · subst hj; simp [Server.dispatch, Server.caseHeads, h5]
          · by_cases hsx : c = 's'
            · subst hsx; simp [Server.dispatch, Server.caseHeads, h6]
            · by_cases he : c = 'e'
              · subst he; simp [Server.dispatch, Server.caseHeads, h7]
              · by_cases hk : c = 'k'
                · subst hk; simp [Server.dispatch, Server.caseHeads, h8]
                · by_cases hg : c = 'g'
                  · subst hg;
                    simp [Server.dispatch, Server.caseHeads, h9]
                  · simp [Server.dispatch, Server.caseHeads, hc, hl, hj,
                      hsx, he, hk, hg]

/-- Witness for `unrecognized_command_dispatch`: the command `zzz` (first
character without a `case` label) is reported as unknown, with the state
unchanged. -/
theorem unrecognized_command_dispatch_witness :
    Server.check_message_on ⟨[]⟩ "zzz?x:y".data =
      (⟨[]⟩, .unknownCommand "zzz".data) := by
  have h := unrecognized_command_dispatch ⟨[]⟩ "zzz?x:y".data "zzz".data
    "x:y".data (by decide) (by decide)
  rw [h]; decide

/-- C7 (counterexample): the claim says a recognized command with a required
key absent fails with `MissingParameter` before performing any effect, and
with `InvalidFormat` when a numeric value does not parse.  In the source,
`create_user` issued without its required `id` key proceeds normally:
`param_map["id"]` default-constructs an empty string and the handler runs
with `id = ""` — no error of any kind is produced (first conjunct).  For
numeric keys there is no `InvalidFormat` or `MissingParameter` diagnostic
either: a non-numeric value (`room_id:abc`, second conjunct) and an absent
key (third conjunct) both end in the same untyped `std::stoi` exception,
which propagates uncaught out of `check_message`. -/
theorem missing_id_not_rejected :
    Server.check_message "create_user?password:pw".data =
      .createUser [] "pw".data ∧
    Server.check_message "join_room?room_id:abc".data = .stoiFailure ∧
    Server.check_message "join_room?user_id:5".data = .stoiFailure := by
  decide

/-- C7 (amended): no recognized command is ever rejected with
`MissingParameter` or `InvalidFormat`.  For every parameter section `ps`,
each handler reads its parameters with `param_map["key"]`, so an absent key
yields the empty string: the string-typed commands proceed with whatever
`operator[]` returns (empty for absent keys), and the numeric-typed
parameters go through `std::stoi`, whose only failure mode is the untyped
thrown exception — produced alike by an absent key (`stoi("")`, second-last
conjunct) and by a value that does not parse as an integer (e.g. `abc`, last
conjunct) — never a diagnostic.  (`invite_user`, though recognized, never
reaches its handler: its first character has no `case` label, so it is
reported as an unknown command.) -/
theorem missing_param_behavior (ps : List Char) :
    Server.check_message ("create_user?".data ++ ps) =
      .createUser (getP (param_map ps) "id".data)
        (getP (param_map ps) "password".data) ∧
    Server.check_message ("login_user?".data ++ ps) =
      .loginUser (getP (param_map ps) "id".data)
        (getP (param_map ps) "password".data) ∧
    Server.check_message ("create_room?".data ++ ps) =
      .createRoomOrInvite (getP (param_map ps) "title".data) ∧
    Server.check_message ("invite_user?".data ++ ps) =
      .unknownCommand "invite_user".data ∧
    Server.check_message ("join_room?".data ++ ps) =
      (match stoi (getP (param_map ps) "room_id".data) with
       | none => .stoiFailure
       | some room_id => .joinRoom room_id) ∧
    Server.check_message ("send_text?".data ++ ps) =
      (match stoi (getP (param_map ps) "room_id".data) with
       | none => .stoiFailure
       | some room_id =>
           match stoi (getP (param_map ps) "user_id".data) with
           | none => .stoiFailure
           | some user_id =>
               .sendText room_id user_id (getP (param_map ps) "text".data)) ∧
    Server.check_message ("exit_room?".data ++ ps) =
      (match stoi (getP (param_map ps) "room_id".data) with
       | none => .stoiFailure
       | some room_id =>
           match stoi (getP (param_map ps) "user_id".data) with
           | none => .stoiFailure
           | some user_id => .exitRoom room_id user_id) ∧
    Server.check_message ("kick_user?".data ++ ps) =
      (match stoi (getP (param_map ps) "room_id".data) with
       | none => .stoiFailure
       | some room_id =>
           match stoi (getP (param_map ps) "user_id".data) with
           | none => .stoiFailure
           | some user_id =>
               match stoi (getP (param_map ps) "target_user_id".data) with
               | none => .stoiFailure
               | some target => .kickUser room_id user_id target) ∧
    Server.check_message ("grant_host?".data ++ ps) =
      (match stoi (getP (param_map ps) "room_id".data) with
       | none => .stoiFailure
       | some room_id =>
           match stoi (getP (param_map ps) "user_id".data) with
           | none => .stoiFailure
           | some user_id =>
               match stoi (getP (param_map ps) "target_user_id".data) with
               | none => .stoiFailure
               | some target => .grantHost room_id user_id target) ∧
    stoi [] = none ∧
    stoi "abc".data = none :=
  ⟨rfl, rfl, rfl, rfl, rfl, rfl, rfl, rfl, rfl, rfl, rfl⟩

end ChatSpec
